import Mathlib

/-!
Shallow embedding of the value-coercion and validation pipeline of
`rest_framework/fields.py` (the field module of this repository), together
with proofs about the embedded definitions.

Python values flowing through the pipeline are modelled by the closed
universe `Val`; the `empty` sentinel ("no data provided") is modelled by
`Option.none` at the entry points that receive it, so that it stays
distinct from the native null `Val.vnone`.  Exceptions raised by the
pipeline are modelled by `PyErr`.
-/

namespace DRF

/-- Python value universe covering the primitives the field module handles. -/
inductive Val where
  | vnone
  | vbool (b : Bool)
  | vint (n : Int)
  | vstr (s : String)
  | vlist (xs : List Val)

/-- Exceptions raised by the pipeline: `ValidationError` (carrying its
ordered message list), `SkipField`, `AssertionError`, and an uncaught
`KeyError` (raised by a bare dictionary lookup miss). -/
inductive PyErr where
  | validation (msgs : List String)
  | skipField
  | assertionError (msg : String)
  | keyError
deriving DecidableEq

/-- Python `str()` of a value.  The rendering of nested lists is elided
(no field ever stringifies a list in the portions we verify); scalars
follow Python's `str`. -/
def pyStr : Val → String
  | .vnone => "None"
  | .vbool true => "True"
  | .vbool false => "False"
  | .vint n => toString n
  | .vstr s => s
  | .vlist _ => "<list>"

/-- Python `type(value).__name__` for the modelled universe. -/
def typeName : Val → String
  | .vnone => "NoneType"
  | .vbool _ => "bool"
  | .vint _ => "int"
  | .vstr _ => "str"
  | .vlist _ => "list"

/-- A part of a Python format-string template: a literal chunk or a
named replacement field (`\x7bname\x7d`). -/
inductive TPart where
  | lit (s : String)
  | hole (name : String)

/-- Render a format-string template against keyword arguments, as
Python's `str.format(**kwargs)` does for simple named fields.  `fail`
always supplies every keyword a message mentions, so the missing-key
case never fires in the verified code paths. -/
def renderMsg (template : List TPart) (kwargs : List (String × String)) : String :=
  (template.map (fun p =>
    match p with
    | .lit s => s
    | .hole n => ((kwargs.lookup n).getD ""))).foldl (fun a b => a ++ b) ""

/-- An `error_messages` dictionary: error key to message template. -/
abbrev ErrTable := List (String × List TPart)

/-- Insert into an association list with Python `dict` semantics: a
repeated key overwrites the earlier entry, a fresh key appends. -/
def dictInsert {α : Type} (d : List (String × α)) (kv : String × α) : List (String × α) :=
  if d.any (fun x => x.1 == kv.1) then
    d.map (fun x => if x.1 == kv.1 then kv else x)
  else d ++ [kv]

/-- Python `dict.update`: entries of `e` override or extend `d`.  This is
how `Field.__init__` merges `default_error_messages` down the class
hierarchy (base first, most specific last). -/
def dictUpdate {α : Type} (d e : List (String × α)) : List (String × α) :=
  e.foldl dictInsert d

/-- The `MISSING_ERROR_MESSAGE` module constant. -/
def MISSING_ERROR_MESSAGE : List TPart :=
  [.lit "ValidationError raised by `", .hole "class_name",
   .lit "`, but error key `", .hole "key",
   .lit "` does not exist in the `error_messages` dictionary."]

/-- `Field.fail(key, **kwargs)`: look the key up in the merged
`error_messages` table and raise `ValidationError` with the interpolated
message; a missing key raises `AssertionError` with
`MISSING_ERROR_MESSAGE` instead. -/
def fieldFail (error_messages : ErrTable) (className key : String)
    (kwargs : List (String × String)) : PyErr :=
  match error_messages.lookup key with
  | some msg => .validation [renderMsg msg kwargs]
  | Option.none => .assertionError (renderMsg MISSING_ERROR_MESSAGE
      [("class_name", className), ("key", key)])

/-- A field's `default`: the `empty` sentinel, a static value, or a
zero-argument producer (`is_simple_callable`). -/
inductive Default where
  | empty
  | static (v : Val)
  | callable (f : Unit → Val)

/-- Whether the default `is empty`. -/
def Default.isEmpty : Default → Bool
  | .empty => true
  | _ => false

/-- `Field.get_default()`: raise `SkipField` when no default is
configured, invoke a callable default, return a static one. -/
def getDefault : Default → Except PyErr Val
  | .empty => .error .skipField
  | .callable f => .ok (f ())
  | .static v => .ok v

/-- The state of a bound field that `Field.run_validation` consults.
`partialRoot` is `getattr(self.root, 'partial', False)`; `validators`
model registered validators as pass (`none`) or raise
`ValidationError` with a message list (`some msgs`); the
`requires_context` back-reference injection is a side effect with no
bearing on control flow and is not modelled. -/
structure FieldSpec where
  className : String
  required : Bool
  allow_null : Bool
  coerce_blank_to_null : Bool
  default : Default
  partialRoot : Bool
  error_messages : ErrTable
  validators : List (Val → Option (List String))
  to_internal_value : Val → Except PyErr Val
  validate : Val → Except PyErr Unit

/-- `Field.run_validators(value)`: run every validator in order, extend
the accumulated message list with each `ValidationError`'s messages, and
raise them together at the end when any accumulated. -/
def runValidators (validators : List (Val → Option (List String))) (value : Val) :
    Except PyErr Unit :=
  let errors := validators.foldl (fun errs validator =>
    match validator value with
    | Option.none => errs
    | some msgs => errs ++ msgs) []
  if errors.isEmpty then .ok () else .error (.validation errors)

/-- `Field.run_validation(data=empty)`.  The `data` argument is
`Option.none` for the `empty` sentinel.  Mirrors the source: the absent
branch (partial / required / default), blank-to-null coercion of the
empty string, the null branch, then `to_internal_value`,
`run_validators` and the `validate` hook. -/
def Field.run_validation (fs : FieldSpec) (data : Option Val) : Except PyErr Val :=
  match data with
  | Option.none =>
    if fs.partialRoot then .error .skipField
    else if fs.required then
      .error (fieldFail fs.error_messages fs.className "required" [])
    else getDefault fs.default
  | some d₀ =>
    let d := match d₀ with
      | .vstr "" => if fs.coerce_blank_to_null then Val.vnone else d₀
      | _ => d₀
    match d with
    | .vnone =>
      if !fs.allow_null then
        .error (fieldFail fs.error_messages fs.className "null" [])
      else .ok Val.vnone
    | _ => do
      let value ← fs.to_internal_value d
      let _ ← runValidators fs.validators value
      let _ ← fs.validate value
      .ok value

/-- `Field.default_error_messages`. -/
def Field.default_error_messages : ErrTable :=
  [("required", [.lit "This field is required."]),
   ("null", [.lit "This field may not be null."])]

/-! ## Field construction (`Field.__init__`) -/

/-- `NOT_READ_ONLY_WRITE_ONLY` module constant. -/
def NOT_READ_ONLY_WRITE_ONLY : String := "May not set both `read_only` and `write_only`"

/-- `NOT_READ_ONLY_REQUIRED` module constant. -/
def NOT_READ_ONLY_REQUIRED : String := "May not set both `read_only` and `required`"

/-- `NOT_READ_ONLY_DEFAULT` module constant. -/
def NOT_READ_ONLY_DEFAULT : String := "May not set both `read_only` and `default`"

/-- `NOT_REQUIRED_DEFAULT` module constant. -/
def NOT_REQUIRED_DEFAULT : String := "May not set both `required` and `default`"

/-- `USE_READONLYFIELD` module constant. -/
def USE_READONLYFIELD : String := "Field(read_only=True) should be ReadOnlyField"

/-- The configuration flags `Field.__init__` resolves and stores. -/
structure FieldCore where
  read_only : Bool
  write_only : Bool
  required : Bool
  default : Default

/-- `Field.__init__`: derive `required` when unset (`True` unless a
default is provided or the field is read-only), then check the assert
chain in source order.  `isFieldBaseClass` models
`self.__class__ == Field` for the `USE_READONLYFIELD` assert. -/
def Field.init (read_only write_only : Bool) (required : Option Bool)
    (default : Default) (isFieldBaseClass : Bool) : Except PyErr FieldCore :=
  let req := match required with
    | some r => r
    | Option.none => default.isEmpty && !read_only
  if read_only && write_only then .error (.assertionError NOT_READ_ONLY_WRITE_ONLY)
  else if read_only && req then .error (.assertionError NOT_READ_ONLY_REQUIRED)
  else if read_only && !default.isEmpty then .error (.assertionError NOT_READ_ONLY_DEFAULT)
  else if req && !default.isEmpty then .error (.assertionError NOT_REQUIRED_DEFAULT)
  else if read_only && isFieldBaseClass then .error (.assertionError USE_READONLYFIELD)
  else .ok { read_only := read_only, write_only := write_only, required := req,
             default := default }

/-! ## Binding (`Field.bind`) -/

/-- Auxiliary for splitting a character list on `.` separators. -/
def splitDotsAux : List Char → List Char → List (List Char)
  | [], acc => [acc.reverse]
  | c :: cs, acc =>
    if c = '.' then acc.reverse :: splitDotsAux cs []
    else splitDotsAux cs (c :: acc)

/-- Python `s.split('.')`. -/
def splitDots (s : String) : List String :=
  (splitDotsAux s.data []).map String.mk

/-- Python `s.replace('_', ' ')` for single characters. -/
def replaceUnderscores (s : String) : String :=
  String.mk (s.data.map (fun c => if c = '_' then ' ' else c))

/-- Python `s.capitalize()`: first character upper-cased, the rest
lower-cased. -/
def pyCapitalize (s : String) : String :=
  match s.data with
  | [] => ""
  | c :: cs => String.mk (c.toUpper :: cs.map Char.toLower)

/-- The binding-related state of a field instance: `source` and `label`
as configured (or `Option.none`), `field_name`/`parent` set by `bind`
(`parent` abstracted to a presence flag), and the derived
`source_attrs`. -/
structure FieldBind where
  source : Option String
  label : Option String
  field_name : Option String
  parent : Bool
  source_attrs : List String
deriving DecidableEq

/-- `Field.bind(field_name, parent)`: assert that the configured source
is not redundantly equal to the field name, then set `field_name` and
`parent`, default `label` from the field name, default `source` to the
field name, and derive `source_attrs` (empty for the whole-instance
source `*`, else the dot-split path). -/
def Field.bind (st : FieldBind) (field_name : String) : Except PyErr FieldBind :=
  if st.source = some field_name then
    .error (.assertionError
      "It is redundant to specify a `source` equal to the field name. Remove the `source` keyword argument.")
  else
    let label := match st.label with
      | some l => some l
      | Option.none => some (pyCapitalize (replaceUnderscores field_name))
    let src := match st.source with
      | some s => s
      | Option.none => field_name
    let source_attrs := if src = "*" then [] else splitDots src
    .ok { source := some src, label := label, field_name := some field_name,
          parent := true, source_attrs := source_attrs }

/-! ## Attribute path resolver (`get_attribute`) -/

/-- Instances the attribute path resolver walks: the native null, opaque
terminal values (distinguished by a tag), and structured objects
carrying attributes and, when subscriptable, key-indexed items.  An
attribute entry of `Option.none` models an attribute access that raises
`ObjectDoesNotExist` (a broken relation); a missing attribute entry
raises `AttributeError`; `items Option.none` models a value that is not
subscriptable (`TypeError` on indexing). -/
inductive PyObj where
  | pnone
  | leaf (n : Nat)
  | node (attrs : List (String × Option PyObj)) (items : Option (List (String × PyObj)))

/-- Outcome of `getattr(instance, attr)` in the modelled universe. -/
inductive AttrRes where
  | found (o : PyObj)
  | raisesDNE
  | attrMissing

/-- `getattr(instance, attr)`. -/
def getattrPy (inst : PyObj) (attr : String) : AttrRes :=
  match inst with
  | .node attrs _ =>
    match attrs.lookup attr with
    | some (some o) => .found o
    | some Option.none => .raisesDNE
    | Option.none => .attrMissing
  | _ => .attrMissing

/-- `instance[attr]`: `Option.none` covers `KeyError`, `TypeError` and
`AttributeError`, all of which the resolver catches alike. -/
def getitemPy (inst : PyObj) (attr : String) : Option PyObj :=
  match inst with
  | .node _ (some items) => items.lookup attr
  | _ => Option.none

/-- The only failure `get_attribute` lets escape: the original
`AttributeError`, tagged with the step it arose at. -/
inductive GAErr where
  | attributeError (attr : String)
deriving DecidableEq

/-- `get_attribute(instance, attrs)`: walk the steps; an
`ObjectDoesNotExist` makes the whole resolution return `None`; an
`AttributeError` is retried as a key lookup, whose success is *returned*
directly and whose failure re-raises the original `AttributeError`. -/
def get_attribute (inst : PyObj) : List String → Except GAErr PyObj
  | [] => .ok inst
  | attr :: rest =>
    match getattrPy inst attr with
    | .found next => get_attribute next rest
    | .raisesDNE => .ok PyObj.pnone
    | .attrMissing =>
      match getitemPy inst attr with
      | some v => .ok v
      | Option.none => .error (.attributeError attr)

/-! ## CharField -/

/-- `CharField.default_error_messages`. -/
def CharField.default_error_messages : ErrTable :=
  [("blank", [.lit "This field may not be blank."])]

/-- The merged `error_messages` table of `CharField`. -/
def CharField.error_messages : ErrTable :=
  dictUpdate Field.default_error_messages CharField.default_error_messages

/-- `CharField.run_validation`: test the empty string before delegating
to the base implementation, failing `blank` unless `allow_blank`, and
returning the empty string directly when blanks are allowed. -/
def CharField.run_validation (fs : FieldSpec) (allow_blank : Bool)
    (data : Option Val) : Except PyErr Val :=
  match data with
  | some (.vstr "") =>
    if !allow_blank then
      .error (fieldFail fs.error_messages fs.className "blank" [])
    else .ok (Val.vstr "")
  | _ => Field.run_validation fs data

/-! ## IntegerField -/

/-- Accumulate decimal digits into a number, rejecting non-digits. -/
def natOfDigitsAux : List Char → Nat → Option Nat
  | [], acc => some acc
  | c :: cs, acc =>
    if c.isDigit then natOfDigitsAux cs (acc * 10 + (c.toNat - 48))
    else Option.none

/-- Parse a non-empty all-digit character list. -/
def natOfDigits : List Char → Option Nat
  | [] => Option.none
  | l => natOfDigitsAux l 0

/-- Whitespace as stripped by Python's `str.strip` / `int`. -/
def isPySpace (c : Char) : Bool :=
  c = ' ' || c = '\t' || c = '\n' || c = '\r'

/-- Python `s.strip()`. -/
def pyStrip (s : String) : String :=
  String.mk (((s.data.dropWhile isPySpace).reverse.dropWhile isPySpace).reverse)

/-- Python `int(s)` for base-10 string input: optional surrounding
whitespace, optional sign, decimal digits; anything else raises
`ValueError` (`Option.none`). -/
def pyToInt (s : String) : Option Int :=
  match (pyStrip s).data with
  | '-' :: rest => (natOfDigits rest).map (fun n => -(n : Int))
  | '+' :: rest => (natOfDigits rest).map (fun n => (n : Int))
  | rest => (natOfDigits rest).map (fun n => (n : Int))

/-- `IntegerField.default_error_messages`. -/
def IntegerField.default_error_messages : ErrTable :=
  [("invalid", [.lit "A valid integer is required."]),
   ("max_value", [.lit "Ensure this value is less than or equal to ", .hole "max_value", .lit "."]),
   ("min_value", [.lit "Ensure this value is greater than or equal to ", .hole "min_value", .lit "."])]

/-- The merged `error_messages` table of `IntegerField`. -/
def IntegerField.error_messages : ErrTable :=
  dictUpdate Field.default_error_messages IntegerField.default_error_messages

/-- `IntegerField.to_internal_value`: `int(six.text_type(data))`,
failing `invalid` on `ValueError`/`TypeError`. -/
def IntegerField.to_internal_value (error_messages : ErrTable) (data : Val) :
    Except PyErr Val :=
  match pyToInt (pyStr data) with
  | some n => .ok (.vint n)
  | Option.none => .error (fieldFail error_messages "IntegerField" "invalid" [])

/-- A bare `IntegerField()` as `ListField` binds it as child: required
derived to true, no default, unbound root so partial mode is off. -/
def listChildIntSpec : FieldSpec :=
  { className := "IntegerField", required := true, allow_null := false,
    coerce_blank_to_null := true, default := .empty, partialRoot := false,
    error_messages := IntegerField.error_messages, validators := [],
    to_internal_value := IntegerField.to_internal_value IntegerField.error_messages,
    validate := fun _ => .ok () }

/-! ## ListField -/

/-- `ListField.default_error_messages`. -/
def ListField.default_error_messages : ErrTable :=
  [("not_a_list", [.lit "Expected a list of items but got type `", .hole "input_type", .lit "`"])]

/-- The merged `error_messages` table of `ListField`. -/
def ListField.error_messages : ErrTable :=
  dictUpdate Field.default_error_messages ListField.default_error_messages

/-- The list comprehension
`[self.child.run_validation(item) for item in data]`: items are
validated left to right and the first exception propagates. -/
def runChildren (child : Val → Except PyErr Val) : List Val → Except PyErr (List Val)
  | [] => .ok []
  | x :: xs => do
    let v ← child x
    let vs ← runChildren child xs
    .ok (v :: vs)

/-- `ListField.to_internal_value`: bare strings and non-iterables fail
`not_a_list`; a list is mapped through the child's `run_validation` by
a list comprehension.  The HTML-form branch
(`html.is_html_input`) concerns form-encoded payloads and is outside the
modelled inputs. -/
def ListField.to_internal_value (child : Val → Except PyErr Val)
    (error_messages : ErrTable) (data : Val) : Except PyErr Val :=
  match data with
  | .vlist xs => (runChildren child xs).map Val.vlist
  | _ => .error (fieldFail error_messages "ListField" "not_a_list"
      [("input_type", typeName data)])

/-! ## ChoiceField -/

/-- `ChoiceField.default_error_messages`. -/
def ChoiceField.default_error_messages : ErrTable :=
  [("invalid_choice", [.lit "`", .hole "input", .lit "` is not a valid choice."])]

/-- The merged `error_messages` table of `ChoiceField`. -/
def ChoiceField.error_messages : ErrTable :=
  dictUpdate Field.default_error_messages ChoiceField.default_error_messages

/-- `self.choice_strings_to_values`: the stringified-key-to-value map
built from the `(value, display)` pairs' keys.  (The bare-choices style
normalizes to `(item, item)` pairs and is subsumed by the paired
form.) -/
def ChoiceField.choice_strings_to_values (choices : List (Val × String)) :
    List (String × Val) :=
  choices.foldl (fun d kv => dictInsert d (pyStr kv.1, kv.1)) []

/-- `ChoiceField.to_internal_value`: look the stringified input up in
the reverse map, failing `invalid_choice` on a `KeyError`. -/
def ChoiceField.to_internal_value (choices : List (Val × String))
    (error_messages : ErrTable) (data : Val) : Except PyErr Val :=
  match (ChoiceField.choice_strings_to_values choices).lookup (pyStr data) with
  | some v => .ok v
  | Option.none => .error (fieldFail error_messages "ChoiceField" "invalid_choice"
      [("input", pyStr data)])

/-- `ChoiceField.to_representation`: the same reverse-map lookup, with
no exception handling — a miss raises a bare `KeyError`. -/
def ChoiceField.to_representation (choices : List (Val × String)) (value : Val) :
    Except PyErr Val :=
  match (ChoiceField.choice_strings_to_values choices).lookup (pyStr value) with
  | some v => .ok v
  | Option.none => .error .keyError

/-! ## DecimalField -/

/-- `decimal.Decimal` values as the field observes them through
`as_tuple()`: NaN, the two infinities, or a finite value given by sign,
normalized digit tuple (no leading zeros) and exponent. -/
inductive PyDecimal where
  | nan
  | inf (negative : Bool)
  | finite (sign : Bool) (digittuple : List Nat) (exponent : Int)
deriving DecidableEq

/-- Strip the leading zeros of a coefficient. -/
def stripLeadingZeros : List Nat → List Nat
  | 0 :: rest => stripLeadingZeros rest
  | l => l

/-- Normalize a coefficient as `Decimal.as_tuple()` presents it: leading
zeros dropped, but the zero value keeps a single `0` digit. -/
def normDigits (l : List Nat) : List Nat :=
  match stripLeadingZeros l with
  | [] => [0]
  | r => r

/-- Build the `as_tuple()` view of a non-negative decimal literal with
the given integer and fractional digit lists, as
`decimal.Decimal("<int>.<frac>")` would normalize it. -/
def mkDecimal (intPart fracPart : List Nat) : PyDecimal :=
  .finite false (normDigits (intPart ++ fracPart)) (-(fracPart.length : Int))

/-- `DecimalField.default_error_messages`. -/
def DecimalField.default_error_messages : ErrTable :=
  [("invalid", [.lit "A valid number is required."]),
   ("max_value", [.lit "Ensure this value is less than or equal to ", .hole "max_value", .lit "."]),
   ("min_value", [.lit "Ensure this value is greater than or equal to ", .hole "min_value", .lit "."]),
   ("max_digits", [.lit "Ensure that there are no more than ", .hole "max_digits", .lit " digits in total."]),
   ("max_decimal_places", [.lit "Ensure that there are no more than ", .hole "max_decimal_places", .lit " decimal places."]),
   ("max_whole_digits", [.lit "Ensure that there are no more than ", .hole "max_whole_digits", .lit " digits before the decimal point."])]

/-- The merged `error_messages` table of `DecimalField`. -/
def DecimalField.error_messages : ErrTable :=
  dictUpdate Field.default_error_messages DecimalField.default_error_messages

/-- The digit counting of `DecimalField.to_internal_value`:
`decimals = abs(exponent)`, `digits = len(digittuple)` bumped up to
`decimals` when leading zeros reach up to or past the decimal point.
Returns `(digits, decimals)`. -/
def DecimalField.digitCounts (digittuple : List Nat) (exponent : Int) : Int × Int :=
  let decimals : Int := (exponent.natAbs : Int)
  let digits : Int := (digittuple.length : Int)
  if decimals > digits then (decimals, decimals) else (digits, decimals)

/-- Whether an optional limit is set and exceeded. -/
def exceeds (limit : Option Int) (x : Int) : Bool :=
  match limit with
  | some l => decide (x > l)
  | Option.none => false

/-- Render an optional integer the way `str.format` would receive it. -/
def optIntStr (o : Option Int) : String :=
  match o with
  | some n => toString n
  | Option.none => "None"

/-- Whether both limits are set and `whole_digits` exceeds their
difference. -/
def wholeLimitExceeded (max_digits decimal_places : Option Int) (whole : Int) : Bool :=
  match max_digits, decimal_places with
  | some md, some dp => decide (whole > md - dp)
  | _, _ => false

/-- The `max_whole_digits` interpolation value `max_digits - decimal_places`. -/
def wholeLimitStr (max_digits decimal_places : Option Int) : String :=
  match max_digits, decimal_places with
  | some md, some dp => toString (md - dp)
  | _, _ => "None"

/-- `DecimalField.to_internal_value` from the parsed decimal on: the
argument is the result of `decimal.Decimal(smart_text(value).strip())`,
with `Option.none` standing for a `DecimalException`.  NaN (the one
value unequal to itself) and the infinities fail `invalid`; the digit
counts are then checked in source order against `max_digits`,
`decimal_places` and their difference. -/
def DecimalField.to_internal_value (max_digits decimal_places : Option Int)
    (error_messages : ErrTable) (value : Option PyDecimal) : Except PyErr PyDecimal :=
  match value with
  | Option.none => .error (fieldFail error_messages "DecimalField" "invalid" [])
  | some PyDecimal.nan => .error (fieldFail error_messages "DecimalField" "invalid" [])
  | some (PyDecimal.inf _) => .error (fieldFail error_messages "DecimalField" "invalid" [])
  | some (PyDecimal.finite sign digittuple exponent) =>
    let counts := DecimalField.digitCounts digittuple exponent
    let whole_digits := counts.1 - counts.2
    if exceeds max_digits counts.1 then
      .error (fieldFail error_messages "DecimalField" "max_digits"
        [("max_digits", optIntStr max_digits)])
    else if exceeds decimal_places counts.2 then
      .error (fieldFail error_messages "DecimalField" "max_decimal_places"
        [("max_decimal_places", optIntStr decimal_places)])
    else if wholeLimitExceeded max_digits decimal_places whole_digits then
      .error (fieldFail error_messages "DecimalField" "max_whole_digits"
        [("max_whole_digits", wholeLimitStr max_digits decimal_places)])
    else .ok (PyDecimal.finite sign digittuple exponent)

/-! ## Temporal fields -/

/-- The `ISO_8601` marker from the package root
(`rest_framework.ISO_8601 = 'iso-8601'`), referenced by the field
module. -/
def ISO_8601 : String := "iso-8601"

/-- Python `s.lower()` over the modelled character set. -/
def strLower (s : String) : String :=
  String.mk (s.data.map Char.toLower)

/-- Modelled from the spec: `humanize_datetime` lives in
`rest_framework.utils`, which is not among the sources; the spec only
requires "a human-readable rendering of all attempted formats", so the
rendering lists every attempted format. -/
def humanizeFormats (formats : List String) : String :=
  String.intercalate ", " formats

/-- The format-trying loop shared by the three temporal
`to_internal_value` methods: attempt each format in declared order,
return the first success, and produce the exhaustion failure when none
parses. -/
def tryInputFormats {R : Type} (attempt : String → Option R)
    (failRes : Except PyErr R) : List String → Except PyErr R
  | [] => failRes
  | f :: rest =>
    match attempt f with
    | some r => .ok r
    | Option.none => tryInputFormats attempt failRes rest

/-- Inputs a `DateTimeField` can receive: a plain date (not a
datetime), an existing datetime, or a raw string to parse.
The datetime type itself and the library parsers are abstracted as
parameters, since they live in Django, not this repository. -/
inductive DateTimeInput (DT : Type) where
  | pyDate
  | pyDatetime (d : DT)
  | raw (s : String)

/-- `DateTimeField.default_error_messages`. -/
def DateTimeField.default_error_messages : ErrTable :=
  [("invalid", [.lit "Datetime has wrong format. Use one of these formats instead: ", .hole "format"]),
   ("date", [.lit "Expected a datetime but got a date."])]

/-- The merged `error_messages` table of `DateTimeField`. -/
def DateTimeField.error_messages : ErrTable :=
  dictUpdate Field.default_error_messages DateTimeField.default_error_messages

/-- One attempt of the `DateTimeField` format loop: the ISO marker
(matched case-insensitively) goes through the strict
`parse_datetime`, a literal format through `strptime`; a success is
passed through `enforce_timezone`. -/
def DateTimeField.attemptFormat {DT : Type} (parse_datetime : String → Option DT)
    (strptime : String → String → Option DT) (enforce_timezone : DT → DT)
    (s f : String) : Option DT :=
  if strLower f = ISO_8601 then (parse_datetime s).map enforce_timezone
  else (strptime s f).map enforce_timezone

/-- `DateTimeField.to_internal_value`: refuse a plain date (`date`),
pass an existing datetime through `enforce_timezone`, and otherwise try
the input formats strictly in order, failing `invalid` with the
humanized format list on exhaustion. -/
def DateTimeField.to_internal_value {DT : Type} (parse_datetime : String → Option DT)
    (strptime : String → String → Option DT) (enforce_timezone : DT → DT)
    (input_formats : List String) (error_messages : ErrTable)
    (value : DateTimeInput DT) : Except PyErr DT :=
  match value with
  | .pyDate => .error (fieldFail error_messages "DateTimeField" "date" [])
  | .pyDatetime d => .ok (enforce_timezone d)
  | .raw s =>
    tryInputFormats (DateTimeField.attemptFormat parse_datetime strptime enforce_timezone s)
      (.error (fieldFail error_messages "DateTimeField" "invalid"
        [("format", humanizeFormats input_formats)]))
      input_formats

/-- Inputs a `DateField` can receive: a datetime (refused), an existing
date, or a raw string. -/
inductive DateInput (D : Type) where
  | pyDatetime
  | pyDate (d : D)
  | raw (s : String)

/-- `DateField.default_error_messages`. -/
def DateField.default_error_messages : ErrTable :=
  [("invalid", [.lit "Date has wrong format. Use one of these formats instead: ", .hole "format"]),
   ("datetime", [.lit "Expected a date but got a datetime."])]

/-- The merged `error_messages` table of `DateField`. -/
def DateField.error_messages : ErrTable :=
  dictUpdate Field.default_error_messages DateField.default_error_messages

/-- One attempt of the `DateField` format loop: the ISO marker goes
through the strict `parse_date` (already yielding a date), a literal
format through `strptime` followed by `.date()`. -/
def DateField.attemptFormat {D DTm : Type} (parse_date : String → Option D)
    (strptime : String → String → Option DTm) (toDate : DTm → D)
    (s f : String) : Option D :=
  if strLower f = ISO_8601 then parse_date s
  else (strptime s f).map toDate

/-- `DateField.to_internal_value`: refuse a datetime (`datetime`),
return an existing date, and otherwise try the input formats strictly
in order, failing `invalid` with the humanized format list on
exhaustion. -/
def DateField.to_internal_value {D DTm : Type} (parse_date : String → Option D)
    (strptime : String → String → Option DTm) (toDate : DTm → D)
    (input_formats : List String) (error_messages : ErrTable)
    (value : DateInput D) : Except PyErr D :=
  match value with
  | .pyDatetime => .error (fieldFail error_messages "DateField" "datetime" [])
  | .pyDate d => .ok d
  | .raw s =>
    tryInputFormats (DateField.attemptFormat parse_date strptime toDate s)
      (.error (fieldFail error_messages "DateField" "invalid"
        [("format", humanizeFormats input_formats)]))
      input_formats

/-- Inputs a `TimeField` can receive: an existing time or a raw
string. -/
inductive TimeInput (T : Type) where
  | pyTime (t : T)
  | raw (s : String)

/-- `TimeField.default_error_messages`. -/
def TimeField.default_error_messages : ErrTable :=
  [("invalid", [.lit "Time has wrong format. Use one of these formats instead: ", .hole "format"])]

/-- The merged `error_messages` table of `TimeField`. -/
def TimeField.error_messages : ErrTable :=
  dictUpdate Field.default_error_messages TimeField.default_error_messages

/-- One attempt of the `TimeField` format loop: the ISO marker goes
through the strict `parse_time`, a literal format through `strptime`
followed by `.time()`. -/
def TimeField.attemptFormat {T DTm : Type} (parse_time : String → Option T)
    (strptime : String → String → Option DTm) (toTime : DTm → T)
    (s f : String) : Option T :=
  if strLower f = ISO_8601 then parse_time s
  else (strptime s f).map toTime

/-- `TimeField.to_internal_value`: return an existing time, and
otherwise try the input formats strictly in order, failing `invalid`
with the humanized format list on exhaustion. -/
def TimeField.to_internal_value {T DTm : Type} (parse_time : String → Option T)
    (strptime : String → String → Option DTm) (toTime : DTm → T)
    (input_formats : List String) (error_messages : ErrTable)
    (value : TimeInput T) : Except PyErr T :=
  match value with
  | .pyTime t => .ok t
  | .raw s =>
    tryInputFormats (TimeField.attemptFormat parse_time strptime toTime s)
      (.error (fieldFail error_messages "TimeField" "invalid"
        [("format", humanizeFormats input_formats)]))
      input_formats

/-! ## Concrete instances used to evaluate the theorems -/

/-- A plain `Field(allow_null=False)` with blank-to-null coercion, the
base configuration `run_validation` dispatches over. -/
def c2spec : FieldSpec :=
  { className := "Field", required := true, allow_null := false,
    coerce_blank_to_null := true, default := .empty, partialRoot := false,
    error_messages := Field.default_error_messages, validators := [],
    to_internal_value := fun v => .ok v, validate := fun _ => .ok () }

/-! ## Theorems -/

/-- The accumulated error list of `run_validators` equals the ordered
concatenation of every failing validator's messages. -/
theorem runValidators_foldl_collect (validators : List (Val → Option (List String)))
    (value : Val) (acc : List String) :
    validators.foldl (fun errs validator =>
      match validator value with
      | Option.none => errs
      | some msgs => errs ++ msgs) acc
      = acc ++ (validators.map (fun f => (f value).getD [])).flatten := by
  induction validators generalizing acc with
  | nil => simp
  | cons f fs ih =>
    simp only [List.foldl, List.map, List.flatten]
    cases h : f value with
    | none => simp [h, ih]
    | some msgs => simp [h, ih]

/-- C5: `run_validators` invokes every registered validator in declared
order even after one has raised, accumulates all failing validators'
messages into a single ordered list (in validator order), and raises
them together as one validation error at the end; when no validator
raises it returns without error. -/
theorem run_validators_accumulates (validators : List (Val → Option (List String)))
    (value : Val) :
    runValidators validators value =
      if ((validators.map (fun f => (f value).getD [])).flatten).isEmpty then .ok ()
      else .error (.validation ((validators.map (fun f => (f value).getD [])).flatten)) := by
  unfold runValidators
  rw [runValidators_foldl_collect validators value []]
  simp

/-- C2: `run_validation` dispatch.  On the `Absent` sentinel it skips
in partial mode, else fails `required` when required, else returns the
default; on native null (also reached from the empty string under
blank-to-null coercion) it fails `null` unless `allow_null` and
otherwise returns null directly; and the null outcome is independent of
`to_internal_value`, the validators and the `validate` hook — null is
never passed to the parse step. -/
theorem run_validation_dispatch (fs : FieldSpec) :
    (Field.run_validation fs Option.none =
      (if fs.partialRoot then .error .skipField
       else if fs.required then
         .error (fieldFail fs.error_messages fs.className "required" [])
       else getDefault fs.default)) ∧
    (Field.run_validation fs (some Val.vnone) =
      (if fs.allow_null then .ok Val.vnone
       else .error (fieldFail fs.error_messages fs.className "null" []))) ∧
    (fs.coerce_blank_to_null = true →
      Field.run_validation fs (some (Val.vstr "")) =
        Field.run_validation fs (some Val.vnone)) ∧
    (∀ tiv vals vald,
      Field.run_validation
        { fs with to_internal_value := tiv, validators := vals, validate := vald }
        (some Val.vnone)
        = Field.run_validation fs (some Val.vnone)) := by
  refine ⟨rfl, ?_, ?_, fun _ _ _ => rfl⟩
  · cases hb : fs.allow_null <;> simp [Field.run_validation, hb]
  · intro h
    simp [Field.run_validation, h]

/-- Witness for C2: a required, non-nullable base field coerces the
blank string to null and fails with the `null` error message. -/
theorem run_validation_dispatch_witness :
    Field.run_validation c2spec (some (Val.vstr "")) =
      .error (.validation ["This field may not be null."]) := by
  have h := run_validation_dispatch c2spec
  rw [h.2.2.1 rfl, h.2.1]
  rfl

/-- C10: `CharField.run_validation` on the empty string.  With
`allow_blank` it returns the empty string for every field
configuration — so neither `to_internal_value`, nor any registered
validator, nor the base required/null/default machinery is consulted;
without `allow_blank` it fails `blank` for every configuration,
including `allow_null=True`, because the blank check precedes the base
method's blank-to-null coercion. -/
theorem charfield_blank_policy :
    (∀ fs : FieldSpec,
      CharField.run_validation fs true (some (Val.vstr "")) = .ok (Val.vstr "")) ∧
    (∀ fs : FieldSpec,
      CharField.run_validation fs false (some (Val.vstr "")) =
        .error (fieldFail fs.error_messages fs.className "blank" [])) :=
  ⟨fun _ => rfl, fun _ => rfl⟩

/-- C8: `Field.__init__` enforces the construction-time invariants.
Every successfully constructed field satisfies `read_only ⇒ ¬write_only`,
`read_only ⇒ ¬required`, `read_only ⇒ default is Absent` and
`required ⇒ default is Absent`; constructing with `required=True` and
any non-absent default fails; and when `required` is left unset it is
derived to true exactly when no default is provided and the field is
not read-only. -/
theorem field_init_invariants :
    (∀ ro wo rq df b core, Field.init ro wo rq df b = .ok core →
      (core.read_only = true → core.write_only = false) ∧
      (core.read_only = true → core.required = false) ∧
      (core.read_only = true → core.default.isEmpty = true) ∧
      (core.required = true → core.default.isEmpty = true)) ∧
    (∀ ro wo df b, df.isEmpty = false →
      (Field.init ro wo (some true) df b).isOk = false) ∧
    (∀ ro wo df b core, Field.init ro wo Option.none df b = .ok core →
      core.required = (df.isEmpty && !ro)) := by
  refine ⟨?_, ?_, ?_⟩
  · intro ro wo rq df b core h
    cases df <;> cases ro <;> cases wo <;> cases b <;> rcases rq with _ | (_ | _) <;>
      simp [Field.init, Default.isEmpty] at h <;>
      (try subst h) <;> simp [Default.isEmpty]
  · intro ro wo df b hdf
    unfold Field.init
    cases ro <;> cases wo <;> simp [hdf, Except.isOk, Except.toBool]
  · intro ro wo df b core h
    cases df <;> cases ro <;> cases wo <;> cases b <;>
      simp [Field.init, Default.isEmpty] at h <;>
      (try subst h) <;> simp [Default.isEmpty]

/-- Witness for C8: `Field(required=True, default=None)` fails at
construction, while a bare `Field()` derives `required = True`. -/
theorem field_init_invariants_witness :
    (Field.init false false (some true) (Default.static Val.vnone) false).isOk = false ∧
    Field.init false false Option.none Default.empty false =
      .ok { read_only := false, write_only := false, required := true,
            default := Default.empty } ∧
    ({ read_only := false, write_only := false, required := true,
       default := Default.empty : FieldCore }).required = (Default.empty.isEmpty && !false) := by
  refine ⟨field_init_invariants.2.1 false false (Default.static Val.vnone) false rfl, rfl, ?_⟩
  exact field_init_invariants.2.2 false false Default.empty false
    { read_only := false, write_only := false, required := true, default := Default.empty } rfl

/-- C9 counterexample: an instance that has already been bound (here the
result of binding a field with no explicit source to the name `a`) is
rebound to the different name `b` without error — the second `bind` call
succeeds, so rebinding is not unconditionally an error. -/
theorem bind_rebind_succeeds_cex :
    Field.bind { source := Option.none, label := Option.none,
                 field_name := Option.none, parent := false, source_attrs := [] } "a"
      = .ok { source := some "a", label := some "A", field_name := some "a",
              parent := true, source_attrs := ["a"] } ∧
    (Field.bind { source := some "a", label := some "A", field_name := some "a",
                  parent := true, source_attrs := ["a"] } "b").isOk = true := by
  constructor
  · rfl
  · rfl

/-- C9 (amended): `bind` enforces only that the configured source
differs from the new field name, so binding is not generally
re-entrant.  A field constructed without an explicit source binds
successfully; because binding defaults `source` to the field name, a
second `bind` under the *same* name then trips the redundant-source
assertion, but a second `bind` under any *different* name succeeds. -/
theorem bind_amended (st : FieldBind) (n₁ n₂ : String)
    (hsrc : st.source = Option.none) (hne : n₂ ≠ n₁) :
    ∃ st', Field.bind st n₁ = .ok st' ∧ st'.source = some n₁ ∧
      (Field.bind st' n₁).isOk = false ∧ (Field.bind st' n₂).isOk = true := by
  refine ⟨{ source := some n₁,
            label := match st.label with
              | some l => some l
              | Option.none => some (pyCapitalize (replaceUnderscores n₁)),
            field_name := some n₁, parent := true,
            source_attrs := if n₁ = "*" then [] else splitDots n₁ }, ?_, rfl, ?_, ?_⟩
  · unfold Field.bind
    rw [hsrc]
    simp
  · unfold Field.bind
    simp [Except.isOk, Except.toBool]
  · unfold Field.bind
    rw [if_neg (fun h => hne (Option.some.inj h).symm)]
    rfl

/-- Witness for C9 (amended): binding to `a` and then rebinding to `b`
on a field with no configured source. -/
theorem bind_amended_witness :
    ∃ st', Field.bind { source := Option.none, label := Option.none,
                        field_name := Option.none, parent := false,
                        source_attrs := [] } "a" = .ok st' ∧
      st'.source = some "a" ∧
      (Field.bind st' "a").isOk = false ∧ (Field.bind st' "b").isOk = true :=
  bind_amended _ "a" "b" rfl (by decide)

/-- An object whose attribute `b` holds the terminal value `7`, sitting
behind the key `a` of a mapping. -/
def c3Inner : PyObj := .node [("b", some (.leaf 7))] Option.none

/-- A mapping (no attributes, key-indexed items) with `c3Inner` at key
`a`. -/
def c3Outer : PyObj := .node [] (some [("a", c3Inner)])

/-- C3 counterexample: resolving the two-step path `[a, b]` against a
mapping stops as soon as the key lookup for `a` succeeds — the inner
object itself is returned and the second step `b` is never walked, even
though walking it would reach the terminal value `7`. -/
theorem get_attribute_returns_early_cex :
    get_attribute c3Outer ["a", "b"] = .ok c3Inner ∧
    get_attribute c3Inner ["b"] = .ok (.leaf 7) ∧
    (.ok c3Inner : Except GAErr PyObj) ≠ .ok (.leaf 7) := by
  refine ⟨rfl, rfl, fun h => ?_⟩
  have h' := Except.ok.inj h
  exact PyObj.noConfusion h'

/-- C3 (amended): `get_attribute` walks a step by attribute lookup; an
`ObjectDoesNotExist` from the lookup makes the whole resolution return
null; a structural attribute failure is retried as a key lookup whose
failure surfaces the original attribute failure — but a successful key
lookup *returns its value immediately* as the final resolution result,
without walking the remaining steps of the path. -/
theorem get_attribute_amended (inst : PyObj) (attr : String) (rest : List String) :
    (∀ nxt, getattrPy inst attr = .found nxt →
      get_attribute inst (attr :: rest) = get_attribute nxt rest) ∧
    (getattrPy inst attr = .raisesDNE →
      get_attribute inst (attr :: rest) = .ok PyObj.pnone) ∧
    (∀ v, getattrPy inst attr = .attrMissing → getitemPy inst attr = some v →
      get_attribute inst (attr :: rest) = .ok v) ∧
    (getattrPy inst attr = .attrMissing → getitemPy inst attr = Option.none →
      get_attribute inst (attr :: rest) = .error (.attributeError attr)) := by
  refine ⟨?_, ?_, ?_, ?_⟩
  · intro nxt h
    simp [get_attribute, h]
  · intro h
    simp [get_attribute, h]
  · intro v h hv
    simp [get_attribute, h, hv]
  · intro h hv
    simp [get_attribute, h, hv]

/-- Witness for C3 (amended): the key-lookup fallback on the mapping
returns the inner object directly. -/
theorem get_attribute_amended_witness :
    getattrPy c3Outer "a" = .attrMissing ∧
    getitemPy c3Outer "a" = some c3Inner ∧
    get_attribute c3Outer ["a", "b"] = .ok c3Inner :=
  ⟨rfl, rfl, (get_attribute_amended c3Outer "a" ["b"]).2.2.1 c3Inner rfl rfl⟩

/-- The list-of-Integer example input `["1", "abc", "3"]`. -/
def c1Input : Val := .vlist [.vstr "1", .vstr "abc", .vstr "3"]

/-- The bound Integer child's `run_validation`, as `ListField` invokes
it per element. -/
def intChildRun : Val → Except PyErr Val :=
  fun item => Field.run_validation listChildIntSpec (some item)

/-- A probe child that behaves like the Integer child except that it
rejects the element `"3"`; it distinguishes whether the third element
is ever validated. -/
def intChildRunProbe : Val → Except PyErr Val :=
  fun item =>
    match item with
    | .vstr "3" => .error (.validation ["probe"])
    | _ => intChildRun item

/-- C1 counterexample: on `["1", "abc", "3"]` with an Integer child,
`ListField.to_internal_value` raises the child's own single `invalid`
error from index 1 with no positional tagging, and the element at
index 2 is never validated — a child that rejects `"3"` produces the
very same outcome, so one element's failure does prevent the remaining
elements from being validated and no aggregated positional report
exists. -/
theorem listfield_short_circuits_cex :
    ListField.to_internal_value intChildRun ListField.error_messages c1Input
      = .error (.validation ["A valid integer is required."]) ∧
    ListField.to_internal_value intChildRunProbe ListField.error_messages c1Input
      = ListField.to_internal_value intChildRun ListField.error_messages c1Input ∧
    intChildRunProbe (.vstr "3") ≠ intChildRun (.vstr "3") := by
  refine ⟨rfl, rfl, fun h => ?_⟩
  have h1 : intChildRunProbe (.vstr "3") = .error (.validation ["probe"]) := rfl
  have h2 : intChildRun (.vstr "3") = .ok (.vint 3) := rfl
  rw [h1, h2] at h
  exact Except.noConfusion h

/-- C1 (amended): `ListField.to_internal_value` fails `not_a_list` on
bare strings and other non-iterables, and maps the child's full
`run_validation` over a list's elements in order — but by a plain list
comprehension, so the first failing element's error propagates as the
whole result, untagged, and the remaining elements are not validated. -/
theorem listfield_to_internal_value_amended (child : Val → Except PyErr Val)
    (em : ErrTable) :
    (∀ s, ListField.to_internal_value child em (.vstr s) =
      .error (fieldFail em "ListField" "not_a_list" [("input_type", "str")])) ∧
    (∀ n, ListField.to_internal_value child em (.vint n) =
      .error (fieldFail em "ListField" "not_a_list" [("input_type", "int")])) ∧
    (∀ xs, ListField.to_internal_value child em (.vlist xs) =
      (runChildren child xs).map Val.vlist) ∧
    (∀ a b rest va e, child a = .ok va → child b = .error e →
      ListField.to_internal_value child em (.vlist (a :: b :: rest)) = .error e) := by
  refine ⟨fun _ => rfl, fun _ => rfl, fun _ => rfl, ?_⟩
  intro a b rest va e ha hb
  simp only [ListField.to_internal_value, runChildren, ha, hb]
  rfl

/-- Witness for C1 (amended): on `["1", "abc", "3"]` the Integer
child's failure at index 1 is the whole result. -/
theorem listfield_to_internal_value_amended_witness :
    ListField.to_internal_value intChildRun ListField.error_messages c1Input
      = .error (.validation ["A valid integer is required."]) :=
  (listfield_to_internal_value_amended intChildRun ListField.error_messages).2.2.2
    (.vstr "1") (.vstr "abc") [.vstr "3"] (.vint 1)
    (.validation ["A valid integer is required."]) rfl rfl

/-- The choices `[(1, "One"), (2, "Two")]`. -/
def c4Choices : List (Val × String) := [(.vint 1, "One"), (.vint 2, "Two")]

/-- C4 counterexample: `to_representation` on a value outside the
choices raises a bare `KeyError`, which is not the `invalid_choice`
validation error the claim promises for the format direction. -/
theorem choice_to_representation_keyerror_cex :
    ChoiceField.to_representation c4Choices (.vstr "9") = .error PyErr.keyError ∧
    (.error PyErr.keyError : Except PyErr Val) ≠
      .error (fieldFail ChoiceField.error_messages "ChoiceField" "invalid_choice"
        [("input", "9")]) := by
  refine ⟨rfl, fun h => ?_⟩
  have h1 : fieldFail ChoiceField.error_messages "ChoiceField" "invalid_choice"
      [("input", "9")] = .validation ["`9` is not a valid choice."] := rfl
  rw [h1] at h
  exact PyErr.noConfusion (Except.error.inj h)

/-- C4 (amended): both directions of `ChoiceField` consult the
stringified-value-to-value reverse map; `to_internal_value` fails
`invalid_choice` on a miss, while `to_representation` performs the same
lookup but lets the underlying `KeyError` escape on a miss instead of
raising a validation error. -/
theorem choicefield_lookup_amended (choices : List (Val × String)) (em : ErrTable)
    (data value : Val) :
    (∀ v, (ChoiceField.choice_strings_to_values choices).lookup (pyStr data) = some v →
      ChoiceField.to_internal_value choices em data = .ok v) ∧
    ((ChoiceField.choice_strings_to_values choices).lookup (pyStr data) = Option.none →
      ChoiceField.to_internal_value choices em data =
        .error (fieldFail em "ChoiceField" "invalid_choice" [("input", pyStr data)])) ∧
    (∀ v, (ChoiceField.choice_strings_to_values choices).lookup (pyStr value) = some v →
      ChoiceField.to_representation choices value = .ok v) ∧
    ((ChoiceField.choice_strings_to_values choices).lookup (pyStr value) = Option.none →
      ChoiceField.to_representation choices value = .error .keyError) := by
  refine ⟨?_, ?_, ?_, ?_⟩
  · intro v h
    simp [ChoiceField.to_internal_value, h]
  · intro h
    simp [ChoiceField.to_internal_value, h]
  · intro v h
    simp [ChoiceField.to_representation, h]
  · intro h
    simp [ChoiceField.to_representation, h]

/-- Witness for C4 (amended): with choices `[(1, "One"), (2, "Two")]`,
`parse("1")` yields the native `1` and `parse("9")` fails
`invalid_choice`. -/
theorem choicefield_lookup_amended_witness :
    ChoiceField.to_internal_value c4Choices ChoiceField.error_messages (.vstr "1")
      = .ok (.vint 1) ∧
    ChoiceField.to_internal_value c4Choices ChoiceField.error_messages (.vstr "9")
      = .error (.validation ["`9` is not a valid choice."]) := by
  constructor
  · exact (choicefield_lookup_amended c4Choices ChoiceField.error_messages
      (.vstr "1") Val.vnone).1 (.vint 1) rfl
  · have h := (choicefield_lookup_amended c4Choices ChoiceField.error_messages
      (.vstr "9") Val.vnone).2.1 rfl
    rw [h]
    rfl

/-- C6: `DecimalField.to_internal_value` fails `invalid` on unparsable
input, NaN (the value unequal to itself) and the two infinities; it
computes the digit counts from the normalized digit tuple with the
leading-zero rule of `digitCounts` (the decimal-place count becomes the
effective digit count when the exponent magnitude exceeds the digit
count, keeping `max_digits == decimal_places` satisfiable); and checks
the three limits in source order, failing `max_digits`,
`max_decimal_places` or `max_whole_digits` respectively, returning the
value when all limits hold. -/
theorem decimalfield_limits (md dp : Int) (em : ErrTable) (sign : Bool)
    (digittuple : List Nat) (exponent : Int) :
    (DecimalField.to_internal_value (some md) (some dp) em Option.none =
      .error (fieldFail em "DecimalField" "invalid" [])) ∧
    (DecimalField.to_internal_value (some md) (some dp) em (some PyDecimal.nan) =
      .error (fieldFail em "DecimalField" "invalid" [])) ∧
    (∀ b, DecimalField.to_internal_value (some md) (some dp) em (some (PyDecimal.inf b)) =
      .error (fieldFail em "DecimalField" "invalid" [])) ∧
    ((DecimalField.digitCounts digittuple exponent).1 > md →
      DecimalField.to_internal_value (some md) (some dp) em
          (some (.finite sign digittuple exponent)) =
        .error (fieldFail em "DecimalField" "max_digits"
          [("max_digits", toString md)])) ∧
    ((DecimalField.digitCounts digittuple exponent).1 ≤ md →
     (DecimalField.digitCounts digittuple exponent).2 > dp →
      DecimalField.to_internal_value (some md) (some dp) em
          (some (.finite sign digittuple exponent)) =
        .error (fieldFail em "DecimalField" "max_decimal_places"
          [("max_decimal_places", toString dp)])) ∧
    ((DecimalField.digitCounts digittuple exponent).1 ≤ md →
     (DecimalField.digitCounts digittuple exponent).2 ≤ dp →
     (DecimalField.digitCounts digittuple exponent).1
       - (DecimalField.digitCounts digittuple exponent).2 > md - dp →
      DecimalField.to_internal_value (some md) (some dp) em
          (some (.finite sign digittuple exponent)) =
        .error (fieldFail em "DecimalField" "max_whole_digits"
          [("max_whole_digits", toString (md - dp))])) ∧
    ((DecimalField.digitCounts digittuple exponent).1 ≤ md →
     (DecimalField.digitCounts digittuple exponent).2 ≤ dp →
     (DecimalField.digitCounts digittuple exponent).1
       - (DecimalField.digitCounts digittuple exponent).2 ≤ md - dp →
      DecimalField.to_internal_value (some md) (some dp) em
          (some (.finite sign digittuple exponent)) =
        .ok (.finite sign digittuple exponent)) := by
  refine ⟨rfl, rfl, fun _ => rfl, ?_, ?_, ?_, ?_⟩
  · intro h
    simp [DecimalField.to_internal_value, exceeds, optIntStr, h]
  · intro h1 h2
    simp [DecimalField.to_internal_value, exceeds, optIntStr, not_lt.mpr h1, h2]
  · intro h1 h2 h3
    simp [DecimalField.to_internal_value, exceeds, wholeLimitExceeded, wholeLimitStr,
      optIntStr, not_lt.mpr h1, not_lt.mpr h2, h3]
  · intro h1 h2 h3
    simp [DecimalField.to_internal_value, exceeds, wholeLimitExceeded,
      not_lt.mpr h1, not_lt.mpr h2, not_lt.mpr h3]

/-- Witness for C6: `Decimal("3.14159")` under `max_digits=6,
decimal_places=2` fails `max_decimal_places`, and `Decimal("0.05")`
under `max_digits=2, decimal_places=2` passes thanks to the
leading-zero rule. -/
theorem decimalfield_limits_witness :
    DecimalField.to_internal_value (some 6) (some 2) DecimalField.error_messages
        (some (mkDecimal [3] [1, 4, 1, 5, 9]))
      = .error (.validation ["Ensure that there are no more than 2 decimal places."]) ∧
    DecimalField.to_internal_value (some 2) (some 2) DecimalField.error_messages
        (some (mkDecimal [] [0, 5]))
      = .ok (mkDecimal [] [0, 5]) := by
  constructor
  · have hm : mkDecimal [3] [1, 4, 1, 5, 9] = PyDecimal.finite false [3, 1, 4, 1, 5, 9] (-5) := rfl
    have h := (decimalfield_limits 6 2 DecimalField.error_messages false
      [3, 1, 4, 1, 5, 9] (-5)).2.2.2.2.1 (by decide) (by decide)
    rw [hm, h]
    rfl
  · have hm : mkDecimal [] [0, 5] = PyDecimal.finite false [5] (-2) := rfl
    have h := (decimalfield_limits 2 2 DecimalField.error_messages false
      [5] (-2)).2.2.2.2.2.2 (by decide) (by decide) (by decide)
    rw [hm, h]

/-- Exhaustion of the temporal format loop: when every attempt fails,
the loop produces the failure result. -/
theorem tryInputFormats_all_none {R : Type} (attempt : String → Option R)
    (failRes : Except PyErr R) (fmts : List String)
    (h : ∀ g ∈ fmts, attempt g = Option.none) :
    tryInputFormats attempt failRes fmts = failRes := by
  induction fmts with
  | nil => rfl
  | cons f rest ih =>
    have hf := h f (by simp)
    simp only [tryInputFormats, hf]
    exact ih (fun g hg => h g (by simp [hg]))

/-- First success of the temporal format loop: the first format whose
attempt parses determines the result, regardless of the formats after
it. -/
theorem tryInputFormats_first_some {R : Type} (attempt : String → Option R)
    (failRes : Except PyErr R) (pre : List String) (f : String) (rest : List String)
    (r : R) (hpre : ∀ g ∈ pre, attempt g = Option.none) (hf : attempt f = some r) :
    tryInputFormats attempt failRes (pre ++ f :: rest) = .ok r := by
  induction pre with
  | nil => simp [tryInputFormats, hf]
  | cons p ps ih =>
    have hp := hpre p (by simp)
    simp only [List.cons_append, tryInputFormats, hp]
    exact ih (fun g hg => hpre g (by simp [hg]))

/-- C7: each temporal field tries its input formats strictly in
declared order — a strict ISO parse for the ISO marker, a pattern parse
for literal formats, both captured by the field's `attemptFormat` —
and the first format that parses wins, with no best-match heuristic;
when every format fails, the field fails `invalid` carrying the
human-readable rendering of all attempted formats. -/
theorem temporal_first_format_wins :
    (∀ (DT : Type) (pdt : String → Option DT) (st : String → String → Option DT)
       (etz : DT → DT) (em : ErrTable) (s : String) (fmts : List String),
      (∀ g ∈ fmts, DateTimeField.attemptFormat pdt st etz s g = Option.none) →
      DateTimeField.to_internal_value pdt st etz fmts em (.raw s) =
        .error (fieldFail em "DateTimeField" "invalid"
          [("format", humanizeFormats fmts)])) ∧
    (∀ (DT : Type) (pdt : String → Option DT) (st : String → String → Option DT)
       (etz : DT → DT) (em : ErrTable) (s : String)
       (pre : List String) (f : String) (rest : List String) (r : DT),
      (∀ g ∈ pre, DateTimeField.attemptFormat pdt st etz s g = Option.none) →
      DateTimeField.attemptFormat pdt st etz s f = some r →
      DateTimeField.to_internal_value pdt st etz (pre ++ f :: rest) em (.raw s) =
        .ok r) ∧
    (∀ (D DTm : Type) (pd : String → Option D) (st : String → String → Option DTm)
       (toDate : DTm → D) (em : ErrTable) (s : String) (fmts : List String),
      (∀ g ∈ fmts, DateField.attemptFormat pd st toDate s g = Option.none) →
      DateField.to_internal_value pd st toDate fmts em (.raw s) =
        .error (fieldFail em "DateField" "invalid"
          [("format", humanizeFormats fmts)])) ∧
    (∀ (D DTm : Type) (pd : String → Option D) (st : String → String → Option DTm)
       (toDate : DTm → D) (em : ErrTable) (s : String)
       (pre : List String) (f : String) (rest : List String) (r : D),
      (∀ g ∈ pre, DateField.attemptFormat pd st toDate s g = Option.none) →
      DateField.attemptFormat pd st toDate s f = some r →
      DateField.to_internal_value pd st toDate (pre ++ f :: rest) em (.raw s) =
        .ok r) ∧
    (∀ (T DTm : Type) (pt : String → Option T) (st : String → String → Option DTm)
       (toTime : DTm → T) (em : ErrTable) (s : String) (fmts : List String),
      (∀ g ∈ fmts, TimeField.attemptFormat pt st toTime s g = Option.none) →
      TimeField.to_internal_value pt st toTime fmts em (.raw s) =
        .error (fieldFail em "TimeField" "invalid"
          [("format", humanizeFormats fmts)])) ∧
    (∀ (T DTm : Type) (pt : String → Option T) (st : String → String → Option DTm)
       (toTime : DTm → T) (em : ErrTable) (s : String)
       (pre : List String) (f : String) (rest : List String) (r : T),
      (∀ g ∈ pre, TimeField.attemptFormat pt st toTime s g = Option.none) →
      TimeField.attemptFormat pt st toTime s f = some r →
      TimeField.to_internal_value pt st toTime (pre ++ f :: rest) em (.raw s) =
        .ok r) := by
  refine ⟨?_, ?_, ?_, ?_, ?_, ?_⟩
  · intro DT pdt st etz em s fmts h
    exact tryInputFormats_all_none _ _ fmts h
  · intro DT pdt st etz em s pre f rest r hpre hf
    exact tryInputFormats_first_some _ _ pre f rest r hpre hf
  · intro D DTm pd st toDate em s fmts h
    exact tryInputFormats_all_none _ _ fmts h
  · intro D DTm pd st toDate em s pre f rest r hpre hf
    exact tryInputFormats_first_some _ _ pre f rest r hpre hf
  · intro T DTm pt st toTime em s fmts h
    exact tryInputFormats_all_none _ _ fmts h
  · intro T DTm pt st toTime em s pre f rest r hpre hf
    exact tryInputFormats_first_some _ _ pre f rest r hpre hf

/-- Witness for C7: a datetime field whose literal format fails but
whose ISO marker parses succeeds via the second format; a date field
with a single failing ISO format fails with the rendering of all
attempted formats; a time field succeeds via its literal format after
the ISO marker fails. -/
theorem temporal_first_format_wins_witness :
    @DateTimeField.to_internal_value Nat (fun _ => some 5) (fun _ _ => Option.none)
        id ["%Y", "iso-8601"] DateTimeField.error_messages (.raw "x") = .ok 5 ∧
    @DateField.to_internal_value Nat Nat (fun _ => Option.none) (fun _ _ => Option.none)
        id ["iso-8601"] DateField.error_messages (.raw "nope")
      = .error (.validation
          ["Date has wrong format. Use one of these formats instead: iso-8601"]) ∧
    @TimeField.to_internal_value Nat Nat (fun _ => Option.none)
        (fun _ f => if f = "%H" then some 3 else Option.none)
        id ["iso-8601", "%H"] TimeField.error_messages (.raw "x") = .ok 3 := by
  refine ⟨?_, ?_, ?_⟩
  · exact temporal_first_format_wins.2.1 Nat (fun _ => some 5) (fun _ _ => Option.none)
      id DateTimeField.error_messages "x" ["%Y"] "iso-8601" [] 5 (by decide) (by decide)
  · have h := temporal_first_format_wins.2.2.1 Nat Nat (fun _ => Option.none)
      (fun _ _ => Option.none) id DateField.error_messages "nope" ["iso-8601"]
      (by decide)
    rw [h]
    rfl
  · exact temporal_first_format_wins.2.2.2.2.2 Nat Nat (fun _ => Option.none)
      (fun _ f => if f = "%H" then some 3 else Option.none) id TimeField.error_messages
      "x" ["iso-8601"] "%H" [] 3 (by decide) (by decide)

end DRF
